import Mathlib

/-!
Verification development for the LLVM backend core of the emerald compiler.

The definitions below are a shallow embedding of the Rust sources under
`src/backend/llvm` (`types.rs`, `instructions.rs`, `codegen.rs`,
`optimizer.rs`, `emitter.rs`) and `src/backend/ports/codegen.rs`.

Modelling conventions:
* Raw LLVM handles (`LLVMModuleRef`, builder handles, basic-block
  handles) are modelled as `Nat`; a possibly-null handle is an
  `Option Nat` with `none` standing for the null pointer.
* The LLVM builder's side effects are made explicit: an `FnBuilder`
  state accumulates the instructions emitted into each basic block of
  the function currently being translated.
* A Rust panic (for example the `.expect("Local not found in map")` in
  `operand_to_llvm_value`, or indexing a `HashMap` with a missing key)
  is modelled as the `Except.error` of a `TransPanic`; a panic is an
  unrecoverable internal error, distinct from the recoverable
  `CodeGenError` / `OptimizationError` / `EmitError` results.
* `f64` payloads are carried opaquely (as their bit pattern); no
  floating-point arithmetic is performed anywhere in this core.
-/

namespace Emerald

/-! ## MIR data model (`core::mir`, as consumed by the backend) -/

/-- Source: `PrimitiveType` (`core::types::primitive`). -/
inductive PrimitiveType where
  | void
  | byte
  | int
  | long
  | size
  | float
  | bool
  | char
deriving DecidableEq, Repr

/-- Source: `Type` (`core::types::ty`).  The backend reads
`Pointer.pointee`, `Array.element`, `Array.size`, `Struct.name`,
`Function.return_type`, `Function.params`; the payloads of
`TraitObject` and `Generic` are ignored by the backend and omitted. -/
inductive MirType where
  | primitive (p : PrimitiveType)
  | pointer (pointee : MirType)
  | array (element : MirType) (size : Nat)
  | struct (name : String)
  | function (return_type : MirType) (params : List MirType)
  | string
  | traitObject
  | generic
deriving Repr

/-- Source: `Local` (`core::mir::operand`); an SSA local id. -/
structure Local where
  id : Nat
deriving DecidableEq, Repr

/-- Source: `Constant` (`core::mir::operand`).  The `Float` payload is
an `f64`, carried here as its bit pattern (no arithmetic is done on
it); `Char` carries its 32-bit code point. -/
inductive Constant where
  | int (i : Int)
  | float (bits : Nat)
  | bool (b : Bool)
  | char (c : Nat)
  | string (s : String)
  | null
deriving DecidableEq, Repr

/-- Source: `Operand` (`core::mir::operand`).  The payload of
`Operand::Function` is ignored by `operand_to_llvm_value`; it is kept
as the referenced name. -/
inductive Operand where
  | constant (c : Constant)
  | local (l : Local)
  | function (name : String)
deriving DecidableEq, Repr

/-- Source: `Instruction` (`core::mir::instruction`), the closed
variant set matched by the backend: arithmetic, comparison,
bitwise/logical, memory, control flow, and SSA management. -/
inductive Instruction where
  | add (dest : Local) (left right : Operand) (type_ : MirType)
  | sub (dest : Local) (left right : Operand) (type_ : MirType)
  | mul (dest : Local) (left right : Operand) (type_ : MirType)
  | div (dest : Local) (left right : Operand) (type_ : MirType)
  | mod (dest : Local) (left right : Operand) (type_ : MirType)
  | eq (dest : Local) (left right : Operand)
  | ne (dest : Local) (left right : Operand)
  | lt (dest : Local) (left right : Operand)
  | le (dest : Local) (left right : Operand)
  | gt (dest : Local) (left right : Operand)
  | ge (dest : Local) (left right : Operand)
  | and (dest : Local) (left right : Operand)
  | or (dest : Local) (left right : Operand)
  | not (dest : Local) (operand : Operand)
  | load (dest : Local) (source : Operand) (type_ : MirType)
  | store (dest : Operand) (source : Operand) (type_ : MirType)
  | alloca (dest : Local) (type_ : MirType)
  | gep (dest : Local) (base : Operand) (index : Operand) (type_ : MirType)
  | ret (value : Option Operand)
  | jump (target : Nat)
  | br (condition : Operand) (then_bb : Nat) (else_bb : Nat)
  | call (dest : Option Local) (func : Operand) (args : List Operand)
      (return_type : Option MirType)
  | phi (dest : Local) (type_ : MirType) (incoming : List (Operand × Nat))
  | copy (dest : Local) (source : Operand) (type_ : MirType)

/-- Source: `Param` of `MirFunction`: a typed parameter with its SSA
local (`p.type_`, `p.local`; the source field `local` is a Lean
keyword, rendered `local_`). -/
structure MirParam where
  type_ : MirType
  local_ : Local

/-- Source: `BasicBlock` (`core::mir`); identified purely by its
position in the function's block list, only `instructions` is read. -/
structure BasicBlock where
  instructions : List Instruction

/-- Source: `MirFunction` (`core::mir`). -/
structure MirFunction where
  name : String
  params : List MirParam
  return_type : Option MirType
  basic_blocks : List BasicBlock

/-! ## LLVM model: types, values, emitted instructions -/

/-- Model of `LLVMTypeRef` as built by this backend: `void` is the
zero-width type, `int w` a `w`-bit integer, `double` the 64-bit float
type, plus pointers, sized arrays, opaque named structs, and
non-variadic function types. -/
inductive LlvmType where
  | void
  | int (width : Nat)
  | double
  | pointer (pointee : LlvmType)
  | array (element : LlvmType) (size : Nat)
  | namedStruct (name : String)
  | fn (ret : LlvmType) (params : List LlvmType)
deriving Repr

/-- Model of `LLVMIntPredicate` (all ten integer predicates of the
LLVM enum; the backend selects among the signed ones). -/
inductive IntPredicate where
  | eq | ne | ugt | uge | ult | ule | sgt | sge | slt | sle
deriving DecidableEq, Repr

/-- Model of `LLVMValueRef` as produced by this backend:
constants (`LLVMConstInt` / `LLVMConstReal` / `LLVMConstStringInContext2`
/ `LLVMConstNull`), function parameters (`LLVMGetParam`), instruction
results (`ssa i` is the value returned by the i-th build call of the
current function), and the raw null pointer `std::ptr::null_mut()`. -/
inductive LlvmValue where
  | constInt (ty : LlvmType) (val : Nat)
  | constReal (bits : Nat)
  | constString (s : String)
  | constNull (ty : LlvmType)
  | param (idx : Nat)
  | ssa (id : Nat)
  | nullRef
deriving Repr

/-- The LLVM instructions this backend emits through the builder. -/
inductive EmittedInst where
  | add (l r : LlvmValue)
  | sub (l r : LlvmValue)
  | mul (l r : LlvmValue)
  | sdiv (l r : LlvmValue)
  | srem (l r : LlvmValue)
  | icmp (pred : IntPredicate) (l r : LlvmValue)
  | andOp (l r : LlvmValue)
  | orOp (l r : LlvmValue)
  | notOp (v : LlvmValue)
  | load (ty : LlvmType) (ptr : LlvmValue)
  | store (val ptr : LlvmValue)
  | alloca (ty : LlvmType)
  | gep (ty : LlvmType) (base : LlvmValue) (indices : List LlvmValue)
  | br (target : Nat)
  | condBr (cond : LlvmValue) (thenB elseB : Nat)
  | ret (v : LlvmValue)
  | retVoid
  | phi (ty : LlvmType) (incoming : List (LlvmValue × Nat))
deriving Repr

/-! ## Type lowering (`types.rs`) -/

/-- Source: `primitive_to_llvm_type` (`types.rs` lines 68-84). -/
def primitive_to_llvm_type : PrimitiveType → LlvmType
  | .void => .void
  | .byte => .int 8
  | .int => .int 32
  | .long => .int 64
  | .size => .int 64
  | .float => .double
  | .bool => .int 1
  | .char => .int 32

mutual

/-- Source: `mir_type_to_llvm_type` (`types.rs` lines 8-65). -/
def mir_type_to_llvm_type : MirType → LlvmType
  | .primitive p => primitive_to_llvm_type p
  | .pointer pointee => .pointer (mir_type_to_llvm_type pointee)
  | .array element size => .array (mir_type_to_llvm_type element) size
  | .struct name => .namedStruct ("struct." ++ name)
  | .function return_type params =>
      .fn (mir_type_to_llvm_type return_type) (mir_types_to_llvm_types params)
  | .string => .pointer (.int 8)
  | .traitObject => .pointer (.int 8)
  | .generic => .pointer (.int 8)

/-- The parameter-list map of the `Type::Function` arm of
`mir_type_to_llvm_type`. -/
def mir_types_to_llvm_types : List MirType → List LlvmType
  | [] => []
  | t :: ts => mir_type_to_llvm_type t :: mir_types_to_llvm_types ts

end

/-! ## Environments, builder state, panics -/

/-- A Rust panic reaching the translator: `localNotFound` models the
`.expect("Local not found in map")` in `operand_to_llvm_value`;
`bbNotFound` models indexing `bb_map` with a missing key. -/
inductive TransPanic where
  | localNotFound (id : Nat)
  | bbNotFound (idx : Nat)
deriving DecidableEq, Repr

/-- Model of the value environment `local_map :
HashMap<usize, LLVMValueRef>`: an association list where insertion
prepends and lookup takes the first (most recent) binding, which
matches `HashMap` insert/get observably. -/
abbrev LocalMap := List (Nat × LlvmValue)

/-- `HashMap::get` on the value environment. -/
def lookupLocal (m : LocalMap) (id : Nat) : Option LlvmValue :=
  match m with
  | [] => none
  | (k, v) :: rest => if k = id then some v else lookupLocal rest id

/-- `HashMap::insert` on the value environment. -/
def insertLocal (m : LocalMap) (id : Nat) (v : LlvmValue) : LocalMap :=
  (id, v) :: m

/-- Model of the block map `bb_map : HashMap<usize, LLVMBasicBlockRef>`;
basic-block handles are `Nat`. -/
abbrev BbMap := List (Nat × Nat)

/-- `HashMap::get` on the block map. -/
def lookupBb (m : BbMap) (idx : Nat) : Option Nat :=
  match m with
  | [] => none
  | (k, v) :: rest => if k = idx then some v else lookupBb rest idx

/-- `HashMap::insert` on the block map. -/
def insertBb (m : BbMap) (idx handle : Nat) : BbMap :=
  (idx, handle) :: m

/-- State of the LLVM builder while one function is translated:
`blocksFun h` is the list of instructions so far emitted into the
basic block with handle `h`, `pos` is the block the builder is
positioned at (`LLVMPositionBuilderAtEnd`), `nextId` numbers the
values returned by build calls. -/
structure FnBuilder where
  blocksFun : Nat → List EmittedInst
  pos : Nat
  nextId : Nat

/-- One `LLVMBuild*` call: append the instruction to the block the
builder is positioned at and return the fresh result value. -/
def emit (b : FnBuilder) (i : EmittedInst) : FnBuilder × LlvmValue :=
  ({ b with
      blocksFun := fun h => if h = b.pos then b.blocksFun h ++ [i] else b.blocksFun h,
      nextId := b.nextId + 1 },
   .ssa b.nextId)

/-- `LLVMAddIncoming` on a just-built phi: replace the last
instruction of the current block (the phi placeholder) with the phi
carrying its incoming pairs. -/
def setLastInst (l : List EmittedInst) (i : EmittedInst) : List EmittedInst :=
  match l with
  | [] => []
  | [_] => [i]
  | x :: xs => x :: setLastInst xs i

/-- In-place update of the phi node at the end of the current block. -/
def setPhiIncoming (b : FnBuilder) (ty : LlvmType)
    (pairs : List (LlvmValue × Nat)) : FnBuilder :=
  { b with
    blocksFun := fun h =>
      if h = b.pos then setLastInst (b.blocksFun h) (.phi ty pairs)
      else b.blocksFun h }

/-! ## Operand and constant resolution (`instructions.rs` lines 8-56) -/

/-- `*i as u64`: the two's-complement u64 image of a signed integer. -/
def u64OfInt (i : Int) : Nat := (i % ((2 : Int) ^ 64)).toNat

/-- Source: `constant_to_llvm_value` (`instructions.rs` lines 27-56). -/
def constant_to_llvm_value : Constant → LlvmValue
  | .int i => .constInt (.int 32) (u64OfInt i)
  | .float bits => .constReal bits
  | .bool b => .constInt (.int 1) (if b then 1 else 0)
  | .char c => .constInt (.int 32) c
  | .string s => .constString s
  | .null => .constNull (.pointer (.int 8))

/-- Source: `operand_to_llvm_value` (`instructions.rs` lines 8-24).
`Local` looks up the environment and panics (`expect`) when the id is
absent; `Operand::Function` returns `std::ptr::null_mut()` without
consulting the environment. -/
def operand_to_llvm_value (operand : Operand) (local_map : LocalMap) :
    Except TransPanic LlvmValue :=
  match operand with
  | .constant c => .ok (constant_to_llvm_value c)
  | .local l =>
      match lookupLocal local_map l.id with
      | some v => .ok v
      | none => .error (.localNotFound l.id)
  | .function _ => .ok .nullRef

/-! ## Instruction translation families (`instructions.rs` lines 58-264)

Each family function mirrors the Rust signature `Option<LLVMValueRef>`
(`bool` for control flow) plus the `&mut` builder / environment it
threads and the panics that may escape it.  A result of
`(b, m, none)` with `b`, `m` unchanged corresponds to the Rust `None`
("not my family, no side effect"); `Store` is the one matched arm that
also answers `None`, after emitting its store. -/

/-- Source: `translate_arithmetic` (`instructions.rs` lines 59-106). -/
def translate_arithmetic (inst : Instruction) (local_map : LocalMap)
    (b : FnBuilder) :
    Except TransPanic (FnBuilder × LocalMap × Option LlvmValue) :=
  match inst with
  | .add dest left right _type_ => do
      let left_val ← operand_to_llvm_value left local_map
      let right_val ← operand_to_llvm_value right local_map
      let (b, result) := emit b (.add left_val right_val)
      return (b, insertLocal local_map dest.id result, some result)
  | .sub dest left right _type_ => do
      let left_val ← operand_to_llvm_value left local_map
      let right_val ← operand_to_llvm_value right local_map
      let (b, result) := emit b (.sub left_val right_val)
      return (b, insertLocal local_map dest.id result, some result)
  | .mul dest left right _type_ => do
      let left_val ← operand_to_llvm_value left local_map
      let right_val ← operand_to_llvm_value right local_map
      let (b, result) := emit b (.mul left_val right_val)
      return (b, insertLocal local_map dest.id result, some result)
  | .div dest left right _type_ => do
      let left_val ← operand_to_llvm_value left local_map
      let right_val ← operand_to_llvm_value right local_map
      let (b, result) := emit b (.sdiv left_val right_val)
      return (b, insertLocal local_map dest.id result, some result)
  | .mod dest left right _type_ => do
      let left_val ← operand_to_llvm_value left local_map
      let right_val ← operand_to_llvm_value right local_map
      let (b, result) := emit b (.srem left_val right_val)
      return (b, insertLocal local_map dest.id result, some result)
  | _ => return (b, local_map, none)

/-- Source: `translate_comparison` (`instructions.rs` lines 109-156):
resolve both operands once, pick the signed predicate from the tag,
bind the destination. -/
def translate_comparison (inst : Instruction) (local_map : LocalMap)
    (b : FnBuilder) :
    Except TransPanic (FnBuilder × LocalMap × Option LlvmValue) :=
  match inst with
  | .eq dest left right => do
      let l ← operand_to_llvm_value left local_map
      let r ← operand_to_llvm_value right local_map
      let (b, result) := emit b (.icmp .eq l r)
      return (b, insertLocal local_map dest.id result, some result)
  | .ne dest left right => do
      let l ← operand_to_llvm_value left local_map
      let r ← operand_to_llvm_value right local_map
      let (b, result) := emit b (.icmp .ne l r)
      return (b, insertLocal local_map dest.id result, some result)
  | .lt dest left right => do
      let l ← operand_to_llvm_value left local_map
      let r ← operand_to_llvm_value right local_map
      let (b, result) := emit b (.icmp .slt l r)
      return (b, insertLocal local_map dest.id result, some result)
  | .le dest left right => do
      let l ← operand_to_llvm_value left local_map
      let r ← operand_to_llvm_value right local_map
      let (b, result) := emit b (.icmp .sle l r)
      return (b, insertLocal local_map dest.id result, some result)
  | .gt dest left right => do
      let l ← operand_to_llvm_value left local_map
      let r ← operand_to_llvm_value right local_map
      let (b, result) := emit b (.icmp .sgt l r)
      return (b, insertLocal local_map dest.id result, some result)
  | .ge dest left right => do
      let l ← operand_to_llvm_value left local_map
      let r ← operand_to_llvm_value right local_map
      let (b, result) := emit b (.icmp .sge l r)
      return (b, insertLocal local_map dest.id result, some result)
  | _ => return (b, local_map, none)

/-- Source: `translate_memory` (`instructions.rs` lines 159-198).
`Store` resolves the `dest` operand as the address, emits the store
and answers `None` (so dispatch falls through), binding nothing. -/
def translate_memory (inst : Instruction) (local_map : LocalMap)
    (b : FnBuilder) :
    Except TransPanic (FnBuilder × LocalMap × Option LlvmValue) :=
  match inst with
  | .load dest source type_ => do
      let ptr ← operand_to_llvm_value source local_map
      let (b, result) := emit b (.load (mir_type_to_llvm_type type_) ptr)
      return (b, insertLocal local_map dest.id result, some result)
  | .store dest source _type_ => do
      let ptr ← operand_to_llvm_value dest local_map
      let val ← operand_to_llvm_value source local_map
      let (b, _) := emit b (.store val ptr)
      return (b, local_map, none)
  | .alloca dest type_ => do
      let (b, result) := emit b (.alloca (mir_type_to_llvm_type type_))
      return (b, insertLocal local_map dest.id result, some result)
  | .gep dest base index type_ => do
      let base_ptr ← operand_to_llvm_value base local_map
      let idx ← operand_to_llvm_value index local_map
      let (b, result) := emit b (.gep (mir_type_to_llvm_type type_) base_ptr [idx])
      return (b, insertLocal local_map dest.id result, some result)
  | _ => return (b, local_map, none)

/-- Source: `translate_control_flow` (`instructions.rs` lines 201-237).
The boolean is the Rust return value ("is a terminator").  A `Jump` or
`Br` whose target is absent from `bb_map` emits nothing and still
reports `true`. -/
def translate_control_flow (inst : Instruction) (local_map : LocalMap)
    (bb_map : BbMap) (b : FnBuilder) :
    Except TransPanic (FnBuilder × Bool) :=
  match inst with
  | .ret value =>
      match value with
      | some val => do
          let ret_val ← operand_to_llvm_value val local_map
          let (b, _) := emit b (.ret ret_val)
          return (b, true)
      | none =>
          let (b, _) := emit b .retVoid
          return (b, true)
  | .jump target =>
      match lookupBb bb_map target with
      | some target_bb =>
          let (b, _) := emit b (.br target_bb)
          return (b, true)
      | none => return (b, true)
  | .br condition then_bb else_bb => do
      let cond ← operand_to_llvm_value condition local_map
      match lookupBb bb_map then_bb, lookupBb bb_map else_bb with
      | some t, some e =>
          let (b, _) := emit b (.condBr cond t e)
          return (b, true)
      | _, _ => return (b, true)
  | _ => return (b, false)

/-! ## Module artifact and codegen state (`ports/codegen.rs`, `codegen.rs`) -/

/-- Source: `LlvmModuleWrapper` (`codegen.rs` lines 13-25): holds a
raw `LLVMModuleRef`, possibly null. -/
structure LlvmModuleWrapper where
  module : Option Nat

/-- The backend-specific payload stored as `Box<dyn Any>` in
`Module.data`: either this backend's `LlvmModuleWrapper` (on which
`downcast_ref::<LlvmModuleWrapper>` succeeds) or some foreign
backend's payload (on which it fails). -/
inductive ModuleData where
  | llvm (w : LlvmModuleWrapper)
  | foreign

/-- Source: `Module` (`ports/codegen.rs`): a name plus an optional
opaque payload. -/
structure Module where
  name : String
  data : Option ModuleData

/-- Source: `Module::with_data`. -/
def Module.with_data (name : String) (data : ModuleData) : Module :=
  { name := name, data := some data }

/-- The LLVM function registered by `LLVMAddFunction` together with
the basic blocks appended to it (`blocks` lists, per handle in
append order, the instructions emitted into that block). -/
structure LlvmFunction where
  name : String
  type_ : LlvmType
  blocks : List (List EmittedInst)

/-- Contents of the native LLVM module behind the generator's
`LLVMModuleRef`: the functions added so far. -/
structure LlvmModule where
  functions : List LlvmFunction

/-- Source: `OptimizationLevel` (`ports/codegen.rs`). -/
inductive OptimizationLevel where
  | none | basic | default | aggressive | size | sizePerformance
deriving DecidableEq, Repr

/-- Source: `LlvmCodeGen` (`codegen.rs` lines 41-47).  The raw
`module: LLVMModuleRef` field is split into the handle
(`moduleRef`, `none` = null pointer) and the module contents behind
it (`moduleContent`); `builder` keeps only its handle. -/
structure LlvmCodeGen where
  moduleRef : Option Nat
  moduleContent : LlvmModule
  builder : Nat
  opt_level : OptimizationLevel
  target_triple : String

/-! ## Function and module translation (`codegen.rs` lines 109-302) -/

/-- Fields of Phi incoming edges resolved in `translate_instruction`:
`incoming.iter().map(|(val_op, _)| operand_to_llvm_value(...))`. -/
def resolveIncomingValues (incoming : List (Operand × Nat))
    (local_map : LocalMap) : Except TransPanic (List LlvmValue) :=
  incoming.mapM (fun p => operand_to_llvm_value p.1 local_map)

/-- `incoming.iter().map(|(_, bb_idx)| bb_map[bb_idx])`: indexing with
a missing key panics. -/
def resolveIncomingBlocks (incoming : List (Operand × Nat))
    (bb_map : BbMap) : Except TransPanic (List Nat) :=
  incoming.mapM (fun p =>
    match lookupBb bb_map p.2 with
    | some h => Except.ok h
    | none => Except.error (.bbNotFound p.2))

/-- Source: `LlvmCodeGen::translate_instruction` (`codegen.rs` lines
216-302): try arithmetic, comparison, memory, control flow in order,
then the remaining SSA-management and bitwise instructions; an
unhandled tag is silently skipped. -/
def translate_instruction (inst : Instruction) (local_map : LocalMap)
    (bb_map : BbMap) (b : FnBuilder) :
    Except TransPanic (LocalMap × FnBuilder) := do
  let (b, local_map, r) ← translate_arithmetic inst local_map b
  if r.isSome then return (local_map, b) else
  let (b, local_map, r) ← translate_comparison inst local_map b
  if r.isSome then return (local_map, b) else
  let (b, local_map, r) ← translate_memory inst local_map b
  if r.isSome then return (local_map, b) else
  let (b, isTerm) ← translate_control_flow inst local_map bb_map b
  if isTerm then return (local_map, b) else
  match inst with
  | .call dest _func _args _return_type =>
      match dest with
      | some dest_local =>
          return (insertLocal local_map dest_local.id (.constNull .void), b)
      | none => return (local_map, b)
  | .phi dest type_ incoming => do
      let ty := mir_type_to_llvm_type type_
      let (b, phiVal) := emit b (.phi ty [])
      if incoming.isEmpty then
        return (insertLocal local_map dest.id phiVal, b)
      else do
        let values ← resolveIncomingValues incoming local_map
        let blocks ← resolveIncomingBlocks incoming bb_map
        let b := setPhiIncoming b ty (values.zip blocks)
        return (insertLocal local_map dest.id phiVal, b)
  | .copy dest source _type_ => do
      let src_val ← operand_to_llvm_value source local_map
      return (insertLocal local_map dest.id src_val, b)
  | .and dest left right => do
      let left_val ← operand_to_llvm_value left local_map
      let right_val ← operand_to_llvm_value right local_map
      let (b, result) := emit b (.andOp left_val right_val)
      return (insertLocal local_map dest.id result, b)
  | .or dest left right => do
      let left_val ← operand_to_llvm_value left local_map
      let right_val ← operand_to_llvm_value right local_map
      let (b, result) := emit b (.orOp left_val right_val)
      return (insertLocal local_map dest.id result, b)
  | .not dest operand => do
      let op_val ← operand_to_llvm_value operand local_map
      let (b, result) := emit b (.notOp op_val)
      return (insertLocal local_map dest.id result, b)
  | _ => return (local_map, b)

/-- The basic-block creation loop of `translate_function` (`codegen.rs`
lines 183-189): one `LLVMAppendBasicBlockInContext` per MIR block
index, inserted into `bb_map` keyed by index.  The handle of the
`idx`-th appended block is `idx`. -/
def buildBbMap (n : Nat) : BbMap :=
  (List.range n).foldl (fun m idx => insertBb m idx idx) []

/-- The parameter set-up loop of `translate_function` (`codegen.rs`
lines 195-198): bind each parameter's local id to the materialized
parameter value `LLVMGetParam(func, idx)`. -/
def seedParams (params : List MirParam) : LocalMap :=
  (params.enum).foldl (fun m p => insertLocal m p.2.local_.id (.param p.1)) []

/-- The inner instruction loop of `translate_function` (`codegen.rs`
lines 206-208). -/
def translateInsts (insts : List Instruction) (local_map : LocalMap)
    (bb_map : BbMap) (b : FnBuilder) :
    Except TransPanic (LocalMap × FnBuilder) :=
  match insts with
  | [] => .ok (local_map, b)
  | i :: rest => do
      let (local_map, b) ← translate_instruction i local_map bb_map b
      translateInsts rest local_map bb_map b

/-- The per-block loop of `translate_function` (`codegen.rs` lines
201-209): look the block handle up (`bb_map[&bb_idx]`, a panic when
absent), position the builder there, translate the instructions. -/
def translateBlocks (bbs : List (Nat × BasicBlock)) (bb_map : BbMap)
    (local_map : LocalMap) (b : FnBuilder) :
    Except TransPanic (LocalMap × FnBuilder) :=
  match bbs with
  | [] => .ok (local_map, b)
  | (bb_idx, mir_bb) :: rest => do
      let llvm_bb ← match lookupBb bb_map bb_idx with
        | some h => Except.ok h
        | none => Except.error (TransPanic.bbNotFound bb_idx)
      let b := { b with pos := llvm_bb }
      let (local_map, b) ← translateInsts mir_bb.instructions local_map bb_map b
      translateBlocks rest bb_map local_map b

/-- Source: `LlvmCodeGen::translate_function` (`codegen.rs` lines
147-213), acting on the module contents behind the generator's
handle: lower the return type (`None` means void), lower the
parameter types, build the non-variadic function type, register the
function, create one basic block per MIR block index (all before any
instruction is translated), seed the environment with the parameters,
then translate the blocks in index order. -/
def translate_function (mod : LlvmModule) (mir_func : MirFunction) :
    Except TransPanic LlvmModule := do
  let ret_type := (mir_func.return_type.map mir_type_to_llvm_type).getD .void
  let param_types := mir_func.params.map (fun p => mir_type_to_llvm_type p.type_)
  let func_type := LlvmType.fn ret_type param_types
  let n := mir_func.basic_blocks.length
  let bb_map := buildBbMap n
  let local_map := seedParams mir_func.params
  let b : FnBuilder := { blocksFun := fun _ => [], pos := 0, nextId := 0 }
  let (_, finalB) ← translateBlocks mir_func.basic_blocks.enum bb_map local_map b
  return { functions := mod.functions ++
      [{ name := mir_func.name, type_ := func_type,
         blocks := (List.range n).map finalB.blocksFun }] }

/-- The function loop of `generate_from_mir` (`codegen.rs` lines
116-118). -/
def translateAll (mod : LlvmModule) : List MirFunction →
    Except TransPanic LlvmModule
  | [] => .ok mod
  | f :: rest => do
      let mod ← translate_function mod f
      translateAll mod rest

/-- Source: `LlvmCodeGen::generate_from_mir` (`codegen.rs` lines
109-128): translate every function, wrap the native module handle in
an `LlvmModuleWrapper`, null the generator's own handle so its `Drop`
does not dispose the transferred module, and return the `Module`. -/
def generate_from_mir (g : LlvmCodeGen) (mir_functions : List MirFunction) :
    Except TransPanic (Module × LlvmCodeGen) := do
  let content ← translateAll g.moduleContent mir_functions
  let module_name := "emerald_module"
  let module_wrapper : LlvmModuleWrapper := { module := g.moduleRef }
  let g := { g with moduleRef := none, moduleContent := content }
  return (Module.with_data module_name (.llvm module_wrapper), g)

/-! ## Teardown (`Drop`) model -/

/-- A native disposal performed during teardown. -/
inductive DisposeAction where
  | disposeModule (h : Nat)
  | disposeBuilder (h : Nat)
deriving DecidableEq, Repr

/-- Source: `impl Drop for LlvmModuleWrapper` (`codegen.rs` lines
27-35): dispose the wrapped module only when the handle is non-null. -/
def LlvmModuleWrapper.dropActions (w : LlvmModuleWrapper) :
    List DisposeAction :=
  match w.module with
  | some h => [.disposeModule h]
  | none => []

/-- Source: `impl Drop for LlvmCodeGen` (`codegen.rs` lines 96-106):
dispose the builder unconditionally, and the module only if it has not
been moved out (handle still non-null). -/
def LlvmCodeGen.dropActions (g : LlvmCodeGen) : List DisposeAction :=
  .disposeBuilder g.builder ::
    (match g.moduleRef with
     | some h => [.disposeModule h]
     | none => [])

/-- How many times teardown disposes the native module handle `h`. -/
def countDisposeModule (h : Nat) (l : List DisposeAction) : Nat :=
  (l.filter (fun a =>
    match a with
    | .disposeModule g => g == h
    | _ => false)).length

/-! ## Optimizer (`optimizer.rs`) and emitter (`emitter.rs`) -/

/-- Modelled from the spec: `OptimizationError` lives in
`ports/optimizer.rs`, which is not among the provided sources; the
spec's error taxonomy names `OptimizationFailed` ("module payload
missing or foreign"), and `optimizer.rs` constructs
`OptimizationError::OptimizationFailed(String)`. -/
inductive OptimizationError where
  | optimizationFailed (msg : String)
deriving DecidableEq, Repr

/-- Modelled from the spec: `EmitError` lives in `ports/emitter.rs`,
which is not among the provided sources; the spec's taxonomy names
`EmissionFailed` (carrying the native toolchain's error text), and the
`?` on `fs::copy` / `fs::write` in `emitter.rs` implies a conversion
from I/O errors, modelled as a separate variant. -/
inductive EmitError where
  | emissionFailed (msg : String)
  | ioError (msg : String)
deriving DecidableEq, Repr

/-- Source: `LlvmOptimizer::optimize` (`optimizer.rs` lines 20-51):
downcast the module payload to `LlvmModuleWrapper`, failing with a
recoverable `OptimizationFailed` when the payload is missing or
foreign; on success run the (minimal) function pass manager over every
function — whose ignored native results cannot affect the returned
`Result` — and return `Ok`. -/
def LlvmOptimizer.optimize (module : Module) :
    Except OptimizationError Unit :=
  match module.data with
  | some (.llvm _w) => .ok ()
  | _ => .error (.optimizationFailed "Module does not contain LLVM module")

/-- Source: `LlvmEmitter::get_llvm_module` (`emitter.rs` lines
250-259): downcast the payload and return the wrapped
`LLVMModuleRef`, failing with a recoverable `EmissionFailed` when the
payload is missing or foreign. -/
def LlvmEmitter.get_llvm_module (module : Module) :
    Except EmitError (Option Nat) :=
  match module.data with
  | some (.llvm w) => .ok w.module
  | _ => .error (.emissionFailed "Module does not contain LLVM module")

/-- The artifact kind passed to `LLVMTargetMachineEmitToFile`. -/
inductive FileType where
  | object
  | assembly
deriving DecidableEq, Repr

/-- The native-toolchain and file-system boundary the emitter calls
through, kept abstract: each field records the outcome the
environment would give to one external call.  `getTargetFromTriple`
yields a target handle or an error message; `emitToFile` and the
file-system operations yield `some errorText` on failure and `none`
on success; `printModuleToString` yields `none` when the native call
returns a null string. -/
structure NativeEnv where
  getTargetFromTriple : String → Except String Nat
  createTargetMachine : Nat → String → Nat
  emitToFile : Nat → Option Nat → String → FileType → Option String
  printModuleToString : Option Nat → Option String
  fsWrite : String → String → Option String
  fsCopy : String → String → Option String
  pathWithExtension : String → String → String

/-- Source: `LlvmEmitter::emit_binary` (`emitter.rs` lines 27-98):
payload check, target selection, object emission to a sibling `.o`
path, then the copy standing in for a link step. -/
def LlvmEmitter.emit_binary (env : NativeEnv) (module : Module)
    (output : String) : Except EmitError Unit := do
  let llvm_module ← LlvmEmitter.get_llvm_module module
  let triple := "x86_64-unknown-linux-gnu"
  let target ← match env.getTargetFromTriple triple with
    | .error e => Except.error (EmitError.emissionFailed e)
    | .ok t => Except.ok t
  let target_machine := env.createTargetMachine target triple
  let obj_path := env.pathWithExtension output "o"
  match env.emitToFile target_machine llvm_module obj_path .object with
  | some err => Except.error (.emissionFailed err)
  | none =>
      match env.fsCopy obj_path output with
      | some ioErr => Except.error (.ioError ioErr)
      | none => Except.ok ()

/-- Source: `LlvmEmitter::emit_assembly` (`emitter.rs` lines 100-162). -/
def LlvmEmitter.emit_assembly (env : NativeEnv) (module : Module)
    (output : String) : Except EmitError Unit := do
  let llvm_module ← LlvmEmitter.get_llvm_module module
  let triple := "x86_64-unknown-linux-gnu"
  let target ← match env.getTargetFromTriple triple with
    | .error e => Except.error (EmitError.emissionFailed e)
    | .ok t => Except.ok t
  let target_machine := env.createTargetMachine target triple
  match env.emitToFile target_machine llvm_module output .assembly with
  | some err => Except.error (.emissionFailed err)
  | none => Except.ok ()

/-- Source: `LlvmEmitter::emit_llvm_ir` (`emitter.rs` lines 164-181). -/
def LlvmEmitter.emit_llvm_ir (env : NativeEnv) (module : Module)
    (output : String) : Except EmitError Unit := do
  let llvm_module ← LlvmEmitter.get_llvm_module module
  match env.printModuleToString llvm_module with
  | none => Except.error (.emissionFailed "Failed to generate LLVM IR")
  | some ir =>
      match env.fsWrite output ir with
      | some ioErr => Except.error (.ioError ioErr)
      | none => Except.ok ()

/-- Source: `LlvmEmitter::emit_object` (`emitter.rs` lines 183-245). -/
def LlvmEmitter.emit_object (env : NativeEnv) (module : Module)
    (output : String) : Except EmitError Unit := do
  let llvm_module ← LlvmEmitter.get_llvm_module module
  let triple := "x86_64-unknown-linux-gnu"
  let target ← match env.getTargetFromTriple triple with
    | .error e => Except.error (EmitError.emissionFailed e)
    | .ok t => Except.ok t
  let target_machine := env.createTargetMachine target triple
  match env.emitToFile target_machine llvm_module output .object with
  | some err => Except.error (.emissionFailed err)
  | none => Except.ok ()

/-! ## Helper lemmas -/

/-- Inversion of a successful `Except` bind. -/
theorem except_bind_ok {α β : Type} {ε : Type} {e : Except ε α}
    {f : α → Except ε β} {v : β}
    (h : (e >>= f) = .ok v) : ∃ a, e = .ok a ∧ f a = .ok v := by
  cases e with
  | error p => simp [Bind.bind, Except.bind] at h
  | ok a => exact ⟨a, rfl, h⟩

/-- Looking up an id just inserted gives the inserted value. -/
theorem lookupLocal_insertLocal (m : LocalMap) (id : Nat) (v : LlvmValue) :
    lookupLocal (insertLocal m id v) id = some v := by
  simp [insertLocal, lookupLocal]

/-! ## Claim theorems -/

/-- C5: Type lowering is a total function over the closed `Type`
variant set mapping primitives at fixed widths — Void to the
zero-width type, Byte to 8-bit, Int to 32-bit, Long and Size to
64-bit, Float to the 64-bit float type, Bool to 1-bit, Char to
32-bit — and mapping String, TraitObject and Generic each to an
opaque pointer with 8-bit element type.  (Totality holds by
construction: `mir_type_to_llvm_type` is a total Lean function over
the full variant set.) -/
theorem claim_C5 :
    mir_type_to_llvm_type (.primitive .void) = .void ∧
    mir_type_to_llvm_type (.primitive .byte) = .int 8 ∧
    mir_type_to_llvm_type (.primitive .int) = .int 32 ∧
    mir_type_to_llvm_type (.primitive .long) = .int 64 ∧
    mir_type_to_llvm_type (.primitive .size) = .int 64 ∧
    mir_type_to_llvm_type (.primitive .float) = .double ∧
    mir_type_to_llvm_type (.primitive .bool) = .int 1 ∧
    mir_type_to_llvm_type (.primitive .char) = .int 32 ∧
    mir_type_to_llvm_type .string = .pointer (.int 8) ∧
    mir_type_to_llvm_type .traitObject = .pointer (.int 8) ∧
    mir_type_to_llvm_type .generic = .pointer (.int 8) := by
  refine ⟨?_, ?_, ?_, ?_, ?_, ?_, ?_, ?_, ?_, ?_, ?_⟩ <;>
    simp [mir_type_to_llvm_type, primitive_to_llvm_type]

/-- C9: For every `FunctionRef` operand and every value environment,
generic operand resolution returns the null value without consulting
the environment and without signalling an error. -/
theorem claim_C9 (name : String) (local_map : LocalMap) :
    operand_to_llvm_value (.function name) local_map = .ok .nullRef := rfl

/-- C4: A `Local` operand whose id is absent from the value
environment makes resolution fail fatally (the modelled panic of
`expect`, not a recoverable diagnostic and not a silent success);
a `Local` operand whose id is present resolves to the bound value. -/
theorem claim_C4 (l : Local) (local_map : LocalMap) :
    (lookupLocal local_map l.id = none →
      operand_to_llvm_value (.local l) local_map =
        .error (.localNotFound l.id)) ∧
    (∀ v, lookupLocal local_map l.id = some v →
      operand_to_llvm_value (.local l) local_map = .ok v) := by
  constructor
  · intro h; simp [operand_to_llvm_value, h]
  · intro v h; simp [operand_to_llvm_value, h]

/-- Witness for C4 at a concrete local id and two concrete
environments. -/
theorem claim_C4_witness :
    operand_to_llvm_value (.local ⟨5⟩) [] = .error (.localNotFound 5) ∧
    operand_to_llvm_value (.local ⟨5⟩) [(5, .nullRef)] = .ok .nullRef :=
  ⟨(claim_C4 ⟨5⟩ []).1 rfl, (claim_C4 ⟨5⟩ [(5, .nullRef)]).2 _ rfl⟩

/-- C7: Translating a `Call` instruction that declares a destination
local always binds some value (here the placeholder
`LLVMConstNull(LLVMVoidType())`) to the destination id: after
translation the id is present in the value environment. -/
theorem claim_C7 (dest : Local) (func : Operand) (args : List Operand)
    (return_type : Option MirType) (local_map : LocalMap)
    (bb_map : BbMap) (b : FnBuilder) :
    ∃ m v,
      translate_instruction (.call (some dest) func args return_type)
          local_map bb_map b = .ok (m, b) ∧
      lookupLocal m dest.id = some v := by
  refine ⟨insertLocal local_map dest.id (.constNull .void),
    .constNull .void, ?_, lookupLocal_insertLocal ..⟩
  rfl

/-- C8: A `Module` whose payload is missing or foreign makes the
optimizer fail with a recoverable `OptimizationFailed` error and
every emitter entry point fail with a recoverable `EmissionFailed`
error (for any behaviour of the native layer, since the failure
precedes every native call); a `Module` carrying this backend's
payload passes the payload check. -/
theorem claim_C8 (env : NativeEnv) (name out : String)
    (w : LlvmModuleWrapper) :
    LlvmOptimizer.optimize ⟨name, none⟩ =
      .error (.optimizationFailed "Module does not contain LLVM module") ∧
    LlvmOptimizer.optimize ⟨name, some .foreign⟩ =
      .error (.optimizationFailed "Module does not contain LLVM module") ∧
    LlvmEmitter.get_llvm_module ⟨name, none⟩ =
      .error (.emissionFailed "Module does not contain LLVM module") ∧
    LlvmEmitter.get_llvm_module ⟨name, some .foreign⟩ =
      .error (.emissionFailed "Module does not contain LLVM module") ∧
    LlvmEmitter.emit_binary env ⟨name, none⟩ out =
      .error (.emissionFailed "Module does not contain LLVM module") ∧
    LlvmEmitter.emit_binary env ⟨name, some .foreign⟩ out =
      .error (.emissionFailed "Module does not contain LLVM module") ∧
    LlvmEmitter.emit_assembly env ⟨name, none⟩ out =
      .error (.emissionFailed "Module does not contain LLVM module") ∧
    LlvmEmitter.emit_assembly env ⟨name, some .foreign⟩ out =
      .error (.emissionFailed "Module does not contain LLVM module") ∧
    LlvmEmitter.emit_llvm_ir env ⟨name, none⟩ out =
      .error (.emissionFailed "Module does not contain LLVM module") ∧
    LlvmEmitter.emit_llvm_ir env ⟨name, some .foreign⟩ out =
      .error (.emissionFailed "Module does not contain LLVM module") ∧
    LlvmEmitter.emit_object env ⟨name, none⟩ out =
      .error (.emissionFailed "Module does not contain LLVM module") ∧
    LlvmEmitter.emit_object env ⟨name, some .foreign⟩ out =
      .error (.emissionFailed "Module does not contain LLVM module") ∧
    LlvmEmitter.get_llvm_module ⟨name, some (.llvm w)⟩ = .ok w.module ∧
    LlvmOptimizer.optimize ⟨name, some (.llvm w)⟩ = .ok () :=
  ⟨rfl, rfl, rfl, rfl, rfl, rfl, rfl, rfl, rfl, rfl, rfl, rfl, rfl, rfl⟩

/-- C3, counterexample: a `Jump` to block index 3 while the Block Map
is empty is not a translation-time error — `translate_control_flow`
succeeds, reports the instruction as a terminator, emits nothing
(the builder is returned unchanged), and the full
`translate_instruction` dispatch succeeds as well. -/
theorem claim_C3_cex :
    translate_control_flow (.jump 3) [] []
        ⟨fun _ => [], 0, 0⟩ = .ok (⟨fun _ => [], 0, 0⟩, true) ∧
    translate_instruction (.jump 3) [] []
        ⟨fun _ => [], 0, 0⟩ = .ok ([], ⟨fun _ => [], 0, 0⟩) :=
  ⟨rfl, rfl⟩

/-- C3, amended: `Jump` and `Br` resolve their target block indices
through the Block Map, and a present target emits the branch to the
mapped block; but a target index absent from the map does not make
translation fail — the branch is silently omitted (nothing is
emitted) and the instruction is still reported as a handled
terminator. -/
theorem claim_C3 (local_map : LocalMap) (bb_map : BbMap) (b : FnBuilder) :
    (∀ target h, lookupBb bb_map target = some h →
      translate_control_flow (.jump target) local_map bb_map b =
        .ok ((emit b (.br h)).1, true)) ∧
    (∀ target, lookupBb bb_map target = none →
      translate_control_flow (.jump target) local_map bb_map b =
        .ok (b, true)) ∧
    (∀ condition then_bb else_bb c,
      operand_to_llvm_value condition local_map = .ok c →
      (∀ t e, lookupBb bb_map then_bb = some t →
        lookupBb bb_map else_bb = some e →
        translate_control_flow (.br condition then_bb else_bb)
          local_map bb_map b = .ok ((emit b (.condBr c t e)).1, true)) ∧
      (lookupBb bb_map then_bb = none →
        translate_control_flow (.br condition then_bb else_bb)
          local_map bb_map b = .ok (b, true)) ∧
      (lookupBb bb_map else_bb = none →
        translate_control_flow (.br condition then_bb else_bb)
          local_map bb_map b = .ok (b, true))) := by
  refine ⟨?_, ?_, ?_⟩
  · intro target h hh
    simp [translate_control_flow, hh, Pure.pure, Except.pure]
  · intro target hh
    simp [translate_control_flow, hh, Pure.pure, Except.pure]
  · intro condition then_bb else_bb c hc
    refine ⟨?_, ?_, ?_⟩
    · intro t e ht he
      simp [translate_control_flow, hc, ht, he]
    · intro ht
      simp [translate_control_flow, hc, ht]
    · intro he
      cases ht : lookupBb bb_map then_bb <;>
        simp [translate_control_flow, hc, ht, he]

/-- Witness for C3 at concrete targets: a present `Jump` emits the
branch, an absent `Jump` and a `Br` with an absent arm are silently
skipped. -/
theorem claim_C3_witness :
    lookupBb [(1, 1)] 1 = some 1 ∧
    translate_control_flow (.jump 1) [] [(1, 1)]
        ⟨fun _ => [], 0, 0⟩ =
      .ok ((emit ⟨fun _ => [], 0, 0⟩ (.br 1)).1, true) ∧
    translate_control_flow (.jump 7) [] [(1, 1)]
        ⟨fun _ => [], 0, 0⟩ = .ok (⟨fun _ => [], 0, 0⟩, true) ∧
    translate_control_flow (.br (.constant (.bool true)) 9 1) [] [(1, 1)]
        ⟨fun _ => [], 0, 0⟩ = .ok (⟨fun _ => [], 0, 0⟩, true) :=
  ⟨rfl,
   (claim_C3 [] [(1, 1)] ⟨fun _ => [], 0, 0⟩).1 1 1 rfl,
   (claim_C3 [] [(1, 1)] ⟨fun _ => [], 0, 0⟩).2.1 7 rfl,
   ((claim_C3 [] [(1, 1)] ⟨fun _ => [], 0, 0⟩).2.2 (.constant (.bool true))
      9 1 (.constInt (.int 1) 1) rfl).2.1 rfl⟩

/-- C10: Translating a `Store` instruction or any control-flow
terminator (`Ret`, `Jump`, `Br`) never adds, removes or changes a
binding: whenever translation succeeds, the value environment it
returns is the one it was given. -/
theorem claim_C10 (local_map : LocalMap) (bb_map : BbMap) (b : FnBuilder) :
    (∀ dest source type_ m bOut,
      translate_instruction (.store dest source type_) local_map bb_map b =
        .ok (m, bOut) → m = local_map) ∧
    (∀ value m bOut,
      translate_instruction (.ret value) local_map bb_map b =
        .ok (m, bOut) → m = local_map) ∧
    (∀ target m bOut,
      translate_instruction (.jump target) local_map bb_map b =
        .ok (m, bOut) → m = local_map) ∧
    (∀ condition then_bb else_bb m bOut,
      translate_instruction (.br condition then_bb else_bb) local_map bb_map b =
        .ok (m, bOut) → m = local_map) := by
  refine ⟨?_, ?_, ?_, ?_⟩
  · intro dest source type_ m bOut h
    cases h1 : operand_to_llvm_value dest local_map with
    | error e =>
      simp [translate_instruction, translate_arithmetic, translate_comparison,
            translate_memory, h1, Bind.bind, Except.bind,
            Pure.pure, Except.pure] at h
    | ok p =>
      cases h2 : operand_to_llvm_value source local_map with
      | error e =>
        simp [translate_instruction, translate_arithmetic, translate_comparison,
              translate_memory, h1, h2, Bind.bind, Except.bind,
              Pure.pure, Except.pure] at h
      | ok v =>
        simp [translate_instruction, translate_arithmetic, translate_comparison,
              translate_memory, translate_control_flow, h1, h2,
              Bind.bind, Except.bind, Pure.pure, Except.pure] at h
        exact h.1.symm
  · intro value m bOut h
    cases value with
    | none =>
      simp [translate_instruction, translate_arithmetic, translate_comparison,
            translate_memory, translate_control_flow,
            Bind.bind, Except.bind, Pure.pure, Except.pure] at h
      exact h.1.symm
    | some val =>
      cases h1 : operand_to_llvm_value val local_map with
      | error e =>
        simp [translate_instruction, translate_arithmetic, translate_comparison,
              translate_memory, translate_control_flow, h1,
              Bind.bind, Except.bind, Pure.pure, Except.pure] at h
      | ok v =>
        simp [translate_instruction, translate_arithmetic, translate_comparison,
              translate_memory, translate_control_flow, h1,
              Bind.bind, Except.bind, Pure.pure, Except.pure] at h
        exact h.1.symm
  · intro target m bOut h
    cases ht : lookupBb bb_map target <;>
      · simp [translate_instruction, translate_arithmetic, translate_comparison,
              translate_memory, translate_control_flow, ht,
              Bind.bind, Except.bind, Pure.pure, Except.pure] at h
        exact h.1.symm
  · intro condition then_bb else_bb m bOut h
    cases h1 : operand_to_llvm_value condition local_map with
    | error e =>
      simp [translate_instruction, translate_arithmetic, translate_comparison,
            translate_memory, translate_control_flow, h1,
            Bind.bind, Except.bind, Pure.pure, Except.pure] at h
    | ok c =>
      cases ht : lookupBb bb_map then_bb <;> cases he : lookupBb bb_map else_bb <;>
        · simp [translate_instruction, translate_arithmetic, translate_comparison,
                translate_memory, translate_control_flow, h1, ht, he,
                Bind.bind, Except.bind, Pure.pure, Except.pure] at h
          exact h.1.symm

/-- Witness for C10: a concrete `Store` through a pointer-valued
local and a concrete `Jump` leave a concrete environment unchanged. -/
theorem claim_C10_witness :
    translate_instruction
        (.store (.local ⟨9⟩) (.constant (.bool true)) (.primitive .bool))
        [(9, .nullRef)] [(0, 0)] ⟨fun _ => [], 0, 0⟩ =
      .ok ([(9, .nullRef)],
        (emit ⟨fun _ => [], 0, 0⟩
          (.store (.constInt (.int 1) 1) .nullRef)).1) ∧
    ([(9, LlvmValue.nullRef)] : LocalMap) = [(9, LlvmValue.nullRef)] ∧
    translate_instruction (.jump 0) [(9, .nullRef)] [(0, 0)]
        ⟨fun _ => [], 0, 0⟩ =
      .ok ([(9, .nullRef)], (emit ⟨fun _ => [], 0, 0⟩ (.br 0)).1) :=
  ⟨rfl,
   (claim_C10 [(9, .nullRef)] [(0, 0)] ⟨fun _ => [], 0, 0⟩).1
     (.local ⟨9⟩) (.constant (.bool true)) (.primitive .bool)
     [(9, .nullRef)]
     (emit ⟨fun _ => [], 0, 0⟩ (.store (.constInt (.int 1) 1) .nullRef)).1
     rfl,
   rfl⟩

/-- C6: For every arithmetic instruction `Add`/`Sub`/`Mul`/`Div`/`Mod`
whose two operands resolve to `l` and `r`, the corresponding signed
operation (`sdiv` for `Div`, `srem` for `Mod`) is emitted and its
result bound to the destination local; for every comparison
instruction `Eq`/`Ne`/`Lt`/`Le`/`Gt`/`Ge` the signed integer
predicate matching the tag (`EQ`/`NE`/`SLT`/`SLE`/`SGT`/`SGE`) is
selected and the result bound to the destination local. -/
theorem claim_C6 (dest : Local) (left right : Operand) (type_ : MirType)
    (local_map : LocalMap) (b : FnBuilder) (l r : LlvmValue)
    (hl : operand_to_llvm_value left local_map = .ok l)
    (hr : operand_to_llvm_value right local_map = .ok r) :
    translate_arithmetic (.add dest left right type_) local_map b =
      .ok ((emit b (.add l r)).1,
        insertLocal local_map dest.id (emit b (.add l r)).2,
        some (emit b (.add l r)).2) ∧
    translate_arithmetic (.sub dest left right type_) local_map b =
      .ok ((emit b (.sub l r)).1,
        insertLocal local_map dest.id (emit b (.sub l r)).2,
        some (emit b (.sub l r)).2) ∧
    translate_arithmetic (.mul dest left right type_) local_map b =
      .ok ((emit b (.mul l r)).1,
        insertLocal local_map dest.id (emit b (.mul l r)).2,
        some (emit b (.mul l r)).2) ∧
    translate_arithmetic (.div dest left right type_) local_map b =
      .ok ((emit b (.sdiv l r)).1,
        insertLocal local_map dest.id (emit b (.sdiv l r)).2,
        some (emit b (.sdiv l r)).2) ∧
    translate_arithmetic (.mod dest left right type_) local_map b =
      .ok ((emit b (.srem l r)).1,
        insertLocal local_map dest.id (emit b (.srem l r)).2,
        some (emit b (.srem l r)).2) ∧
    translate_comparison (.eq dest left right) local_map b =
      .ok ((emit b (.icmp .eq l r)).1,
        insertLocal local_map dest.id (emit b (.icmp .eq l r)).2,
        some (emit b (.icmp .eq l r)).2) ∧
    translate_comparison (.ne dest left right) local_map b =
      .ok ((emit b (.icmp .ne l r)).1,
        insertLocal local_map dest.id (emit b (.icmp .ne l r)).2,
        some (emit b (.icmp .ne l r)).2) ∧
    translate_comparison (.lt dest left right) local_map b =
      .ok ((emit b (.icmp .slt l r)).1,
        insertLocal local_map dest.id (emit b (.icmp .slt l r)).2,
        some (emit b (.icmp .slt l r)).2) ∧
    translate_comparison (.le dest left right) local_map b =
      .ok ((emit b (.icmp .sle l r)).1,
        insertLocal local_map dest.id (emit b (.icmp .sle l r)).2,
        some (emit b (.icmp .sle l r)).2) ∧
    translate_comparison (.gt dest left right) local_map b =
      .ok ((emit b (.icmp .sgt l r)).1,
        insertLocal local_map dest.id (emit b (.icmp .sgt l r)).2,
        some (emit b (.icmp .sgt l r)).2) ∧
    translate_comparison (.ge dest left right) local_map b =
      .ok ((emit b (.icmp .sge l r)).1,
        insertLocal local_map dest.id (emit b (.icmp .sge l r)).2,
        some (emit b (.icmp .sge l r)).2) := by
  refine ⟨?_, ?_, ?_, ?_, ?_, ?_, ?_, ?_, ?_, ?_, ?_⟩ <;>
    simp [translate_arithmetic, translate_comparison, hl, hr,
      Bind.bind, Except.bind, Pure.pure, Except.pure]

/-- Witness for C6: both operands are locals bound to the function's
two parameters; the signed division case is spelled out and the full
conjunction is obtained from the theorem. -/
theorem claim_C6_witness :
    operand_to_llvm_value (.local ⟨0⟩) [(0, .param 0), (1, .param 1)] =
      .ok (.param 0) ∧
    operand_to_llvm_value (.local ⟨1⟩) [(0, .param 0), (1, .param 1)] =
      .ok (.param 1) ∧
    translate_arithmetic
        (.div ⟨2⟩ (.local ⟨0⟩) (.local ⟨1⟩) (.primitive .int))
        [(0, .param 0), (1, .param 1)] ⟨fun _ => [], 0, 0⟩ =
      .ok ((emit ⟨fun _ => [], 0, 0⟩ (.sdiv (.param 0) (.param 1))).1,
        insertLocal [(0, .param 0), (1, .param 1)] 2
          (emit ⟨fun _ => [], 0, 0⟩ (.sdiv (.param 0) (.param 1))).2,
        some (emit ⟨fun _ => [], 0, 0⟩ (.sdiv (.param 0) (.param 1))).2) ∧
    translate_comparison
        (.lt ⟨2⟩ (.local ⟨0⟩) (.local ⟨1⟩))
        [(0, .param 0), (1, .param 1)] ⟨fun _ => [], 0, 0⟩ =
      .ok ((emit ⟨fun _ => [], 0, 0⟩ (.icmp .slt (.param 0) (.param 1))).1,
        insertLocal [(0, .param 0), (1, .param 1)] 2
          (emit ⟨fun _ => [], 0, 0⟩ (.icmp .slt (.param 0) (.param 1))).2,
        some (emit ⟨fun _ => [], 0, 0⟩ (.icmp .slt (.param 0) (.param 1))).2) :=
  ⟨rfl, rfl,
   (claim_C6 ⟨2⟩ (.local ⟨0⟩) (.local ⟨1⟩) (.primitive .int)
      [(0, .param 0), (1, .param 1)] ⟨fun _ => [], 0, 0⟩
      (.param 0) (.param 1) rfl rfl).2.2.2.1,
   (claim_C6 ⟨2⟩ (.local ⟨0⟩) (.local ⟨1⟩) (.primitive .int)
      [(0, .param 0), (1, .param 1)] ⟨fun _ => [], 0, 0⟩
      (.param 0) (.param 1) rfl rfl).2.2.2.2.2.2.2.1⟩

/-- C1: When `generate_from_mir` returns `Ok`, ownership of the native
module payload has transferred exactly once to the returned `Module`:
the generator's internal handle is null afterwards, its teardown
performs no module disposal (only the unconditional builder
disposal), the returned `Module` wraps the generator's original
handle, and the combined teardown of generator and returned wrapper
disposes that handle exactly once. -/
theorem claim_C1 (g : LlvmCodeGen) (mir_functions : List MirFunction)
    (m : Module) (gOut : LlvmCodeGen) (h : Nat)
    (hgen : generate_from_mir g mir_functions = .ok (m, gOut))
    (hmod : g.moduleRef = some h) :
    gOut.moduleRef = none ∧
    gOut.dropActions = [.disposeBuilder g.builder] ∧
    m.data = some (.llvm ⟨g.moduleRef⟩) ∧
    countDisposeModule h
      (gOut.dropActions ++ LlvmModuleWrapper.dropActions ⟨g.moduleRef⟩) = 1 := by
  unfold generate_from_mir at hgen
  obtain ⟨content, hc, hret⟩ := except_bind_ok hgen
  simp only [Pure.pure, Except.pure, Except.ok.injEq, Prod.mk.injEq] at hret
  obtain ⟨hm, hg⟩ := hret
  subst hm
  subst hg
  refine ⟨rfl, rfl, rfl, ?_⟩
  simp [LlvmCodeGen.dropActions, LlvmModuleWrapper.dropActions, hmod,
    countDisposeModule]

/-- Witness for C1: a generator holding module handle 1 and builder
handle 2, given no MIR functions. -/
theorem claim_C1_witness :
    generate_from_mir
        ⟨some 1, ⟨[]⟩, 2, .default, "x86_64-unknown-linux-gnu"⟩ [] =
      .ok (Module.with_data "emerald_module" (.llvm ⟨some 1⟩),
        ⟨none, ⟨[]⟩, 2, .default, "x86_64-unknown-linux-gnu"⟩) ∧
    (⟨some 1, ⟨[]⟩, 2, .default, "x86_64-unknown-linux-gnu"⟩ :
        LlvmCodeGen).moduleRef = some 1 ∧
    ((⟨none, ⟨[]⟩, 2, .default, "x86_64-unknown-linux-gnu"⟩ :
        LlvmCodeGen).moduleRef = none ∧
      (⟨none, ⟨[]⟩, 2, .default, "x86_64-unknown-linux-gnu"⟩ :
        LlvmCodeGen).dropActions = [.disposeBuilder 2] ∧
      (Module.with_data "emerald_module" (.llvm ⟨some 1⟩)).data =
        some (.llvm ⟨some 1⟩) ∧
      countDisposeModule 1
        ((⟨none, ⟨[]⟩, 2, .default, "x86_64-unknown-linux-gnu"⟩ :
            LlvmCodeGen).dropActions ++
          LlvmModuleWrapper.dropActions ⟨some 1⟩) = 1) :=
  ⟨rfl, rfl,
   claim_C1 ⟨some 1, ⟨[]⟩, 2, .default, "x86_64-unknown-linux-gnu"⟩
     [] _ _ 1 rfl rfl⟩

/-- The block map built for an `n`-block function contains every block
index, keyed by index. -/
theorem lookupBb_buildBbMap (n idx : Nat) (h : idx < n) :
    lookupBb (buildBbMap n) idx = some idx := by
  induction n with
  | zero => omega
  | succ k ih =>
    have hstep : buildBbMap (k + 1) = insertBb (buildBbMap k) k k := by
      simp [buildBbMap, List.range_succ]
    rw [hstep]
    by_cases hk : k = idx
    · subst hk; simp [insertBb, lookupBb]
    · simp only [insertBb, lookupBb, if_neg hk]
      exact ih (by omega)

/-- C2: A successful translation of a MIR function adds exactly one
target function to the module, whose basic-block count equals the MIR
block count and whose non-variadic function type lists the lowered
parameter types in the MIR parameter order (hence with matching
count); moreover the Block Map that `translate_function` hands to
every instruction translation — built, as in the source, before any
instruction is translated — maps every MIR block index to the block
appended for that index.  (The theorem holds for all MIR functions,
in particular the well-typed ones without unreachable blocks.) -/
theorem claim_C2 (mod : LlvmModule) (mir_func : MirFunction)
    (modOut : LlvmModule)
    (hgen : translate_function mod mir_func = .ok modOut) :
    (∃ g, modOut.functions = mod.functions ++ [g] ∧
      g.name = mir_func.name ∧
      g.blocks.length = mir_func.basic_blocks.length ∧
      g.type_ = .fn
        ((mir_func.return_type.map mir_type_to_llvm_type).getD .void)
        (mir_func.params.map (fun p => mir_type_to_llvm_type p.type_))) ∧
    (∀ idx, idx < mir_func.basic_blocks.length →
      lookupBb (buildBbMap mir_func.basic_blocks.length) idx = some idx) := by
  unfold translate_function at hgen
  obtain ⟨⟨lm, finalB⟩, hb, hret⟩ := except_bind_ok hgen
  simp only [Pure.pure, Except.pure, Except.ok.injEq] at hret
  subst hret
  refine ⟨⟨_, rfl, rfl, ?_, rfl⟩,
    fun idx hidx => lookupBb_buildBbMap _ _ hidx⟩
  simp

/-- Witness for C2: the spec's `add(a: Int, b: Int) -> Int` example —
one block with `Add{dest=t2,left=a,right=b}` then `Ret{value=t2}` —
translates to one function with one basic block holding an add over
the two parameters and a return of its result. -/
theorem claim_C2_witness :
    translate_function ⟨[]⟩
        ⟨"add",
         [⟨.primitive .int, ⟨0⟩⟩, ⟨.primitive .int, ⟨1⟩⟩],
         some (.primitive .int),
         [⟨[.add ⟨2⟩ (.local ⟨0⟩) (.local ⟨1⟩) (.primitive .int),
            .ret (some (.local ⟨2⟩))]⟩]⟩ =
      .ok ⟨[⟨"add", .fn (.int 32) [.int 32, .int 32],
        [[.add (.param 0) (.param 1), .ret (.ssa 0)]]⟩]⟩ ∧
    ((∃ g, (⟨[⟨"add", .fn (.int 32) [.int 32, .int 32],
          [[.add (.param 0) (.param 1), .ret (.ssa 0)]]⟩]⟩ :
            LlvmModule).functions = ([] : List LlvmFunction) ++ [g] ∧
        g.name = "add" ∧
        g.blocks.length = 1 ∧
        g.type_ = .fn (.int 32) [.int 32, .int 32]) ∧
      (∀ idx, idx < 1 → lookupBb (buildBbMap 1) idx = some idx)) := by
  have happ := claim_C2 ⟨[]⟩
    ⟨"add",
     [⟨.primitive .int, ⟨0⟩⟩, ⟨.primitive .int, ⟨1⟩⟩],
     some (.primitive .int),
     [⟨[.add ⟨2⟩ (.local ⟨0⟩) (.local ⟨1⟩) (.primitive .int),
        .ret (some (.local ⟨2⟩))]⟩]⟩
    ⟨[⟨"add", .fn (.int 32) [.int 32, .int 32],
      [[.add (.param 0) (.param 1), .ret (.ssa 0)]]⟩]⟩ rfl
  exact ⟨rfl, happ⟩

end Emerald
